import Mathlib

/-!
Verification of the slobsterble turn-play engine against its specification.

The definitions below are a shallow embedding of the Python sources:
* `slobsterble/game_play_controller.py` (StatelessValidator, GameBoard,
  StatefulValidator, WordBuilder, WordValidator, StateUpdater),
* `slobsterble/game_play_schema.py` (TURN_PLAY_SCHEMA),
* `slobsterble/models/lock.py` (acquire_lock).

Python dictionaries built by `build_tile_count_map` are `defaultdict(int)`
objects; they are embedded as association lists of key/count pairs so that
keys whose count has been driven to zero remain present, exactly as in the
Python dictionaries (this distinction is load-bearing for the game
completion check, which tests list emptiness of the `next_rack_state` /
`next_bag_state` item lists).  Exceptions are embedded with `Except`: a
distinct constructor models each `slobsterble.api_exceptions` kind, and
separate constructors model the generic Python `TypeError` and
`AssertionError` that some code paths raise.
-/

namespace Slobsterble

/-- Tile identity tuple `(letter, value, is_blank)` as used for the keys of
the rack/bag count dictionaries and for `Tile` rows.  `letter` is `none` for
a Python `None` letter (intrinsic blanks). -/
structure TileKey where
  letter : Option Char
  value : Int
  isBlank : Bool
deriving DecidableEq, Repr

/-- Association-list embedding of a Python `defaultdict(int)` keyed by tile
keys: one entry per dictionary key, in insertion order, zero counts kept. -/
abbrev TileMap := List (TileKey × Int)

/-- Dictionary read `m[k]` with the `defaultdict(int)` default of `0`. -/
def dget (m : TileMap) (k : TileKey) : Int :=
  match m.find? (fun p => decide (p.1 = k)) with
  | some p => p.2
  | none => 0

/-- Dictionary update `m[k] += d` of a `defaultdict(int)`: an absent key is
first materialized with value `0` (so `m[k] -= 1` on an absent key stores
`-1` and the key stays in the dictionary afterwards). -/
def dincr (m : TileMap) (k : TileKey) (d : Int) : TileMap :=
  if (m.find? (fun p => decide (p.1 = k))).isSome then
    m.map (fun p => if p.1 = k then (p.1, p.2 + d) else p)
  else
    m ++ [(k, d)]

/-- Python `sum(m.values())`. -/
def totalCount (m : TileMap) : Int :=
  (m.map (fun p => p.2)).sum

/-- Constant `TILES_ON_RACK_MAX`.  Modelled from the spec: the module
`slobsterble/constants.py` is not present under `src/`; the spec fixes the
rack capacity at 7 tiles. -/
def TILES_ON_RACK_MAX : Int := 7

/-- Constant `BINGO_BONUS`.  Modelled from the spec: the module
`slobsterble/constants.py` is not present under `src/`; the spec fixes the
bingo bonus at 50 points. -/
def BINGO_BONUS : Int := 50

/-- The exception kinds of `slobsterble/api_exceptions.py` that the play
pipeline raises, plus the generic Python `TypeError` and `AssertionError`
that some of its code paths raise. -/
inductive PyExc where
  | playSchema
  | playAxis
  | playCurrentTurn
  | playConnected
  | playRackTiles
  | playOverlap
  | playContiguous
  | playDictionary
  | playFirstTurn
  | typeError
  | assertionError
  | loopLimit
deriving DecidableEq, Repr

/-- JSON values that can appear in a turn-submission entry field. -/
inductive JVal where
  | null
  | int (n : Int)
  | str (s : String)
  | bool (b : Bool)
deriving DecidableEq, Repr

/-- A raw element of the turn-submission JSON array, with the six fields
required by `TURN_PLAY_SCHEMA`. -/
structure JEntry where
  row : JVal
  column : JVal
  letter : JVal
  value : JVal
  is_blank : JVal
  is_exchange : JVal
deriving DecidableEq, Repr

/-- JSON-schema check `{'type': 'integer', 'minimum': lo, 'maximum': hi}`. -/
def jIntIn (v : JVal) (lo hi : Int) : Bool :=
  match v with
  | .int n => decide (lo ≤ n) && decide (n ≤ hi)
  | _ => false

/-- JSON-schema check for the `letter` property of a played or exchanged
letter tile: `type: string, minLength: 1, maxLength: 1, pattern: '[A-Z]'`
(the pattern is an `re.search`, so with the length pinned to one the single
character must be an uppercase letter). -/
def jUpperSingle (v : JVal) : Bool :=
  match v with
  | .str s => decide (s.length = 1) && s.toList.all (fun c => decide ('A' ≤ c) && decide (c ≤ 'Z'))
  | _ => false

/-- JSON-schema check `{'type': 'boolean'}`. -/
def jIsBool (v : JVal) : Bool :=
  match v with
  | .bool _ => true
  | _ => false

/-- JSON-schema check `{'type': 'null'}`. -/
def jIsNull (v : JVal) : Bool :=
  match v with
  | .null => true
  | _ => false

/-- Schema `_schema_played_tile()`: in-range integer `row` and `column`, a
single uppercase `letter`, an in-range integer `value`, boolean `is_blank`,
and `is_exchange` equal to the constant `False`. -/
def matchesPlayedTile (rowsMax colsMax valMax : Int) (e : JEntry) : Bool :=
  jIntIn e.row 0 rowsMax && jIntIn e.column 0 colsMax && jUpperSingle e.letter &&
    jIntIn e.value 0 valMax && jIsBool e.is_blank && decide (e.is_exchange = .bool false)

/-- Schema `_schema_exchanged_blank()`: null `row`, `column` and `letter`,
in-range `value`, `is_blank` constant `True`, `is_exchange` constant
`True`. -/
def matchesExchangedBlank (valMax : Int) (e : JEntry) : Bool :=
  jIsNull e.row && jIsNull e.column && jIsNull e.letter &&
    jIntIn e.value 0 valMax && decide (e.is_blank = .bool true) &&
    decide (e.is_exchange = .bool true)

/-- Schema `_schema_exchanged_letter()`: null `row` and `column`, a single
uppercase `letter`, in-range `value`, `is_blank` constant `False`,
`is_exchange` constant `True`. -/
def matchesExchangedLetter (valMax : Int) (e : JEntry) : Bool :=
  jIsNull e.row && jIsNull e.column && jUpperSingle e.letter &&
    jIntIn e.value 0 valMax && decide (e.is_blank = .bool false) &&
    decide (e.is_exchange = .bool true)

/-- Schema `_schema_exchanged_tile()`: `oneOf` the blank and letter exchange
schemas (exactly one of the two must match). -/
def matchesExchangedTile (valMax : Int) (e : JEntry) : Bool :=
  (matchesExchangedBlank valMax e && !matchesExchangedLetter valMax e) ||
    (!matchesExchangedBlank valMax e && matchesExchangedLetter valMax e)

/-- Schema `TURN_PLAY_SCHEMA`: `anyOf` an array of at most
`TILES_ON_RACK_MAX` played tiles and an array of at most
`TILES_ON_RACK_MAX` exchanged tiles. -/
def turnPlaySchema (rowsMax colsMax valMax : Int) (data : List JEntry) : Bool :=
  (decide ((data.length : Int) ≤ TILES_ON_RACK_MAX) &&
      data.all (matchesPlayedTile rowsMax colsMax valMax)) ||
    (decide ((data.length : Int) ≤ TILES_ON_RACK_MAX) &&
      data.all (matchesExchangedTile valMax))

/-- Value of a `row`/`column` field as seen by `_validate_single_axis`:
`None` fields are skipped, integer fields are collected into the sets. -/
def jOptInt (v : JVal) : Option Int :=
  match v with
  | .int n => some n
  | _ => none

/-- The `row_set` local of `_validate_single_axis`: the distinct non-null
`row` fields (a Python set, embedded as a deduplicated list). -/
def axisRowSet (data : List JEntry) : List Int :=
  (data.filterMap (fun e => jOptInt e.row)).dedup

/-- The `column_set` local of `_validate_single_axis`: the distinct non-null
`column` fields. -/
def axisColumnSet (data : List JEntry) : List Int :=
  (data.filterMap (fun e => jOptInt e.column)).dedup

/-- Method `StatelessValidator._validate_single_axis`: collect the set of
distinct non-null rows and columns; accept when both are empty; when there
is exactly one distinct row (else exactly one distinct column), require the
other coordinate to have as many distinct values as there are entries,
raising `PlayOverlapException` otherwise; in all remaining cases raise
`PlayAxisException`. -/
def validateSingleAxis (data : List JEntry) : Except PyExc Bool :=
  if (axisRowSet data).length = 0 ∧ (axisColumnSet data).length = 0 then .ok true
  else if (axisRowSet data).length = 1 then
    if (axisColumnSet data).length ≠ data.length then .error .playOverlap
    else .ok true
  else if (axisColumnSet data).length = 1 then
    if (axisRowSet data).length ≠ data.length then .error .playOverlap
    else .ok true
  else .error .playAxis

/-- Method `StatelessValidator.validate`: schema validation first (a
`ValidationError` is converted to `PlaySchemaException`), then the
single-axis check. -/
def statelessValidate (rowsMax colsMax valMax : Int) (data : List JEntry) :
    Except PyExc Bool :=
  if turnPlaySchema rowsMax colsMax valMax data then validateSingleAxis data
  else .error .playSchema

/-- A turn-submission element after schema validation, as consumed by the
stateful validator, the word builder and the state updater: `row`, `column`
and `letter` are `None` or their typed value, `value` is an integer and the
two flags are booleans. -/
structure Entry where
  row : Option Int
  column : Option Int
  letter : Option Char
  value : Int
  is_blank : Bool
  is_exchange : Bool
deriving DecidableEq, Repr

/-- Named tuple `GameBoardTile` (`letter`, `value`) for a tile already on
the board. -/
structure GameBoardTile where
  letter : Option Char
  value : Int
deriving DecidableEq, Repr

/-- Class `GameBoard`: dimensions, per-cell `(letter_multiplier,
word_multiplier)` pairs (defaulting to `(1, 1)`) and per-cell optional
played tiles, as assembled from the board layout and the game's board
state. -/
structure GameBoard where
  rows : Int
  columns : Int
  modifiers : Int → Int → Int × Int
  playedTiles : Int → Int → Option GameBoardTile

/-- Python comparison `optional_int == i`: comparing `None` with an integer
yields `False`. -/
def optEqInt (o : Option Int) (i : Int) : Bool :=
  match o with
  | none => false
  | some v => decide (v = i)

/-- The data of a `GamePlayer` row used by the stateful validator: the
owning user's id and the rack tile counts. -/
structure GamePlayerInfo where
  userId : Int
  rack : TileMap
deriving DecidableEq, Repr

/-- Python expression `valid & check_result` in `StatefulValidator.validate`:
`bool & bool` is a boolean AND, but `bool & None` raises `TypeError`
(`_validate_first_turn` can return `None`). -/
def pyAnd (b : Bool) (v : Option Bool) : Except PyExc Bool :=
  match v with
  | some c => .ok (b && c)
  | none => .error .typeError

/-- Method `StatefulValidator._validate_user_turn`: the player whose turn it
is must exist and belong to the current user, else
`PlayCurrentTurnException`. -/
def validateUserTurn (gamePlayer : Option GamePlayerInfo) (currentUserId : Int) :
    Except PyExc (Option Bool) :=
  match gamePlayer with
  | none => .error .playCurrentTurn
  | some p =>
      if p.userId ≠ currentUserId then .error .playCurrentTurn
      else .ok (some true)

/-- Rack key of a submitted tile as computed by `_validate_rack_tiles`:
`(None if is_blank else letter.upper(), value, is_blank)`. -/
def rackCheckKey (e : Entry) : TileKey :=
  ⟨if e.is_blank then none else e.letter.map Char.toUpper, e.value, e.is_blank⟩

/-- Loop body of `StatefulValidator._validate_rack_tiles`: decrement the
rack count of each submitted tile's key and raise `PlayRackTilesException`
as soon as a count drops below zero. -/
def checkRackLoop : TileMap → List Entry → Except PyExc (Option Bool)
  | _, [] => .ok (some true)
  | m, e :: rest =>
      let m' := dincr m (rackCheckKey e) (-1)
      if dget m' (rackCheckKey e) < 0 then .error .playRackTiles
      else checkRackLoop m' rest

/-- Method `StatefulValidator._validate_rack_tiles`. -/
def validateRackTiles (rack : TileMap) (data : List Entry) :
    Except PyExc (Option Bool) :=
  checkRackLoop rack data

/-- Python `data[0]['is_exchange']` guard `len(data) == 0 or
data[0]['is_exchange']`. -/
def emptyOrExchange (data : List Entry) : Bool :=
  match data with
  | [] => true
  | e :: _ => e.is_exchange

/-- Method `StatefulValidator._validate_first_turn`: when the centre cell is
empty, a pass or exchange is fine, and otherwise some submitted tile must
land on the centre, else `PlayFirstTurnException`.  When the centre cell is
occupied the Python method falls off the end of its body and returns
`None`. -/
def validateFirstTurn (b : GameBoard) (data : List Entry) :
    Except PyExc (Option Bool) :=
  let centreRow := b.rows / 2
  let centreColumn := b.columns / 2
  if b.playedTiles centreRow centreColumn = none then
    if emptyOrExchange data then .ok (some true)
    else if data.any (fun e =>
        optEqInt e.row centreRow && optEqInt e.column centreColumn) then
      .ok (some true)
    else .error .playFirstTurn
  else .ok none

/-- Method `StatefulValidator._validate_no_overlap`: no non-exchange entry
may target an occupied cell, else `PlayOverlapException`. -/
def validateNoOverlap (b : GameBoard) (data : List Entry) :
    Except PyExc (Option Bool) :=
  if data.any (fun e =>
      !e.is_exchange &&
        (b.playedTiles (e.row.getD 0) (e.column.getD 0)).isSome) then
    .error .playOverlap
  else .ok (some true)

/-- Adjacency test of `_validate_connected`: some 4-neighbour of the entry
is on the board and occupied. -/
def hasOccupiedNeighbour (b : GameBoard) (e : Entry) : Bool :=
  [((0 : Int), (1 : Int)), (0, -1), (1, 0), (-1, 0)].any (fun d =>
    let adjRow := e.row.getD 0 + d.1
    let adjColumn := e.column.getD 0 + d.2
    decide (0 ≤ adjRow) && decide (adjRow < b.rows) &&
      decide (0 ≤ adjColumn) && decide (adjColumn < b.columns) &&
      (b.playedTiles adjRow adjColumn).isSome)

/-- Method `StatefulValidator._validate_connected`: trivially true while the
centre is still empty or for a pass/exchange; otherwise some submitted tile
must have an occupied 4-neighbour, else `PlayConnectedException`. -/
def validateConnected (b : GameBoard) (data : List Entry) :
    Except PyExc (Option Bool) :=
  let centreRow := b.rows / 2
  let centreColumn := b.columns / 2
  if b.playedTiles centreRow centreColumn = none then .ok (some true)
  else if emptyOrExchange data then .ok (some true)
  else if data.any (hasOccupiedNeighbour b) then .ok (some true)
  else .error .playConnected

/-- Walk of `_validate_contiguous`: starting from the smallest submitted
position, each visited cell must be the next unconsumed element of the
submission (in its original order) or an occupied board cell, until all
submitted entries are consumed.  The Python `while` loop is embedded with a
fuel argument; exhausting the fuel is reported as `loopLimit` (unreachable
for the finite boards used in the theorems below). -/
def contiguousLoop (b : GameBoard) (data : List Entry)
    (rowDelta columnDelta : Int) :
    Nat → Nat → Int → Int → Except PyExc (Option Bool)
  | 0, _, _, _ => .error .loopLimit
  | fuel + 1, dataIndex, row, column =>
      if h : dataIndex < data.length then
        let e := data.get ⟨dataIndex, h⟩
        if optEqInt e.row row && optEqInt e.column column then
          contiguousLoop b data rowDelta columnDelta fuel
            (dataIndex + 1) (row + rowDelta) (column + columnDelta)
        else if b.playedTiles row column = none then .error .playContiguous
        else
          contiguousLoop b data rowDelta columnDelta fuel
            dataIndex (row + rowDelta) (column + columnDelta)
      else .ok (some true)

/-- Sort key `(tile['row'], tile['column'])` used by
`_validate_contiguous`. -/
def entryLe (a b : Entry) : Bool :=
  let ar := a.row.getD 0
  let br := b.row.getD 0
  decide (ar < br) || (decide (ar = br) && decide (a.column.getD 0 ≤ b.column.getD 0))

/-- Method `StatefulValidator._validate_contiguous`: sorted by `(row,
column)`, the walk from the first placement along the axis determined by the
first two sorted placements must meet every submitted entry or an occupied
cell with no gaps, else `PlayContiguousException`. -/
def validateContiguous (b : GameBoard) (data : List Entry) :
    Except PyExc (Option Bool) :=
  if data.length ≤ 1 then .ok (some true)
  else if emptyOrExchange data then .ok (some true)
  else
    let sortedData := data.mergeSort entryLe
    match sortedData with
    | [] => .ok (some true)
    | s0 :: srest =>
        let sameColumn :=
          match srest with
          | [] => false
          | s1 :: _ => decide (s0.column.getD 0 = s1.column.getD 0)
        let rowDelta : Int := if sameColumn then 1 else 0
        let columnDelta : Int := if sameColumn then 0 else 1
        contiguousLoop b data rowDelta columnDelta
          (data.length + (b.rows.toNat + b.columns.toNat) + 2)
          0 (s0.row.getD 0) (s0.column.getD 0)

/-- Method `StatefulValidator.validate`: run the six checks in order,
combining each result into `valid` with `&=`.  The first five checks either
raise or return `True`; `_validate_first_turn` returns `None` whenever the
centre cell is occupied, making the combination `valid &
self._validate_first_turn()` raise `TypeError`. -/
def statefulValidate (data : List Entry) (b : GameBoard)
    (gamePlayer : Option GamePlayerInfo) (currentUserId : Int) :
    Except PyExc Bool := do
  let rack := ((gamePlayer.map (fun p => p.rack)).getD [])
  let valid := true
  let v1 ← validateUserTurn gamePlayer currentUserId
  let valid ← pyAnd valid v1
  let v2 ← validateRackTiles rack data
  let valid ← pyAnd valid v2
  let v3 ← validateFirstTurn b data
  let valid ← pyAnd valid v3
  let v4 ← validateNoOverlap b data
  let valid ← pyAnd valid v4
  let v5 ← validateConnected b data
  let valid ← pyAnd valid v5
  let v6 ← validateContiguous b data
  let valid ← pyAnd valid v6
  return valid

/-- Enum `Axis` with members `ROW` and `COLUMN`. -/
inductive Axis where
  | row
  | column
deriving DecidableEq, Repr

/-- Dictionary `WordBuilder.data_letters`: submitted positions mapped to the
submitted letters. -/
def dataLetters (data : List Entry) (r c : Int) : Option (Option Char) :=
  (data.find? (fun e => optEqInt e.row r && optEqInt e.column c)).map
    (fun e => e.letter)

/-- Dictionary `WordBuilder.data_values`: the constructor of `WordBuilder`
builds it as `{(tile.row, tile.column): tile.letter for tile in data}` — the
mapped value is the LETTER, not the numeric value, so every lookup in
`_score_axis` yields a string. -/
def dataValues (data : List Entry) (r c : Int) : Option (Option Char) :=
  (data.find? (fun e => optEqInt e.row r && optEqInt e.column c)).map
    (fun e => e.letter)

/-- First statement of `WordBuilder._build_axis`:
`assert axis in ('row', 'column')`.  The `axis` argument is always one of
the `Axis` enum members `Axis.ROW` / `Axis.COLUMN`, and an enum member never
compares equal to the strings `'row'` or `'column'`, so this membership test
is `False` for every possible argument. -/
def axisInRowColumnStrings : Axis → Bool := fun _ => false

/-- Method `WordBuilder._build_axis`.  Its first statement is the assertion
modelled by `axisInRowColumnStrings`, which fails for every `Axis` member,
so the method raises `AssertionError` before constructing any word; the word
walk that follows the assertion is unreachable. -/
def buildAxis (data : List Entry) (b : GameBoard) (startRow startColumn : Int)
    (axis : Axis) : Except PyExc String :=
  if axisInRowColumnStrings axis then
    .ok ""
  else .error .assertionError

/-- Method `WordBuilder.get_played_words`: a pass or exchange produces no
words; a single placement compares the row word and the column word; with
several placements the axis shared by the first two entries carries the
primary word and each placement contributes its cross word when it is longer
than one letter.  Every branch that builds a word calls `_build_axis`. -/
def getPlayedWords (data : List Entry) (b : GameBoard) :
    Except PyExc (Option String × List String) := do
  match data with
  | [] => return (none, [])
  | e0 :: rest =>
    if e0.is_exchange then return (none, [])
    else
      match rest with
      | [] =>
        let rowWord ← buildAxis data b (e0.row.getD 0) (e0.column.getD 0) .row
        let columnWord ← buildAxis data b (e0.row.getD 0) (e0.column.getD 0) .column
        if rowWord.length = 1 ∧ columnWord.length = 1 then
          return (some rowWord, [])
        else if rowWord.length ≥ columnWord.length then
          if columnWord.length > 1 then return (some rowWord, [columnWord])
          else return (some rowWord, [])
        else
          if rowWord.length > 1 then return (some columnWord, [rowWord])
          else return (some columnWord, [])
      | e1 :: _ =>
        let primaryAxis : Axis :=
          if optEqInt e1.row (e0.row.getD 0) then .row else .column
        let crossAxis : Axis :=
          if optEqInt e1.row (e0.row.getD 0) then .column else .row
        let primaryWord ← buildAxis data b (e0.row.getD 0) (e0.column.getD 0) primaryAxis
        let secondaryWords ← data.foldlM (fun acc e => do
          let w ← buildAxis data b (e.row.getD 0) (e.column.getD 0) crossAxis
          if w.length > 1 then return acc ++ [w] else return acc) ([] : List String)
        return (some primaryWord, secondaryWords)

/-- Accumulator of the `_score_axis` loop: `score_sum`, `word_multiplier`
and `word_len`. -/
structure ScoreAcc where
  scoreSum : Int
  wordMultiplier : Int
  wordLen : Nat
deriving DecidableEq, Repr

/-- One direction of the `_score_axis` walk.  On a cell with a submitted
tile the Python loop computes `self.data_values[(row, column)] *
letter_multiplier` — a string, because `data_values` holds letters — and
adding it to the integer `score_sum` raises `TypeError`.  On an occupied
board cell the raw tile value is added; an empty cell stops the walk.
Embedded with fuel for the `while` loop (sufficient fuel is supplied by
`scoreAxis`). -/
def scoreWalk (data : List Entry) (b : GameBoard) (rowDelta columnDelta : Int) :
    Nat → Int → Int → ScoreAcc → Except PyExc ScoreAcc
  | 0, _, _, _ => .error .loopLimit
  | fuel + 1, row, column, acc =>
      if decide (0 ≤ row) && decide (row < b.rows) &&
          decide (0 ≤ column) && decide (column < b.columns) then
        if (dataValues data row column).isSome then .error .typeError
        else
          match b.playedTiles row column with
          | some t =>
              scoreWalk data b rowDelta columnDelta fuel
                (row + rowDelta) (column + columnDelta)
                ⟨acc.scoreSum + t.value, acc.wordMultiplier, acc.wordLen + 1⟩
          | none => .ok acc
      else .ok acc

/-- Start cell of one direction of the `_score_axis` / `_build_axis` walks:
the positive direction starts one step away from the seed cell. -/
def walkStart (startRow startColumn rowDelta columnDelta : Int) : Int × Int :=
  (if rowDelta = 1 then startRow + 1 else startRow,
   if columnDelta = 1 then startColumn + 1 else startColumn)

/-- Method `WordBuilder._score_axis`: walk both directions from the seed
cell (the `Axis.ROW` deltas move along rows, the `Axis.COLUMN` deltas along
columns), then multiply the letter sum by the word multiplier when the seed
is the centre cell or more than one cell was visited, and score zero
otherwise. -/
def scoreAxis (data : List Entry) (b : GameBoard) (startRow startColumn : Int)
    (axis : Axis) : Except PyExc Int := do
  let deltaPairs : List (Int × Int) :=
    match axis with
    | .row => [(-1, 0), (1, 0)]
    | .column => [(0, -1), (0, 1)]
  let fuel := b.rows.toNat + b.columns.toNat + 2
  let acc ← deltaPairs.foldlM (fun acc d => do
      let s := walkStart startRow startColumn d.1 d.2
      scoreWalk data b d.1 d.2 fuel s.1 s.2 acc)
    (⟨0, 1, 0⟩ : ScoreAcc)
  if (startRow = b.rows / 2 ∧ startColumn = b.columns / 2) ∨ acc.wordLen > 1 then
    return acc.scoreSum * acc.wordMultiplier
  else
    return 0

/-- Method `WordBuilder.compute_score`: a pass or exchange scores zero; a
single placement scores the row axis (plus the column axis unless the seed
is the centre cell); several placements score the shared primary axis once
and the cross axis of every placement, adding the bingo bonus when all
`TILES_ON_RACK_MAX` tiles were placed. -/
def computeScore (data : List Entry) (b : GameBoard) : Except PyExc Int := do
  match data with
  | [] => return 0
  | e0 :: rest =>
    if e0.is_exchange then return 0
    else
      match rest with
      | [] =>
        let rowScore ← scoreAxis data b (e0.row.getD 0) (e0.column.getD 0) .row
        if optEqInt e0.row (b.rows / 2) && optEqInt e0.column (b.columns / 2) then
          return rowScore
        else
          let columnScore ← scoreAxis data b (e0.row.getD 0) (e0.column.getD 0) .column
          return rowScore + columnScore
      | e1 :: _ =>
        let primaryAxis : Axis :=
          if optEqInt e1.row (e0.row.getD 0) then .row else .column
        let crossAxis : Axis :=
          if optEqInt e1.row (e0.row.getD 0) then .column else .row
        let primaryScore ← scoreAxis data b (e0.row.getD 0) (e0.column.getD 0) primaryAxis
        let crossSum ← data.foldlM (fun acc e => do
            let s ← scoreAxis data b (e.row.getD 0) (e.column.getD 0) crossAxis
            return acc + s) (0 : Int)
        let bingo : Int :=
          if (data.length : Int) = TILES_ON_RACK_MAX then BINGO_BONUS else 0
        return primaryScore + crossSum + bingo

/-- Truth test applied by `WordValidator.validate` to the value of
`db.session.query(Dictionary).filter(Dictionary.id ==
self.dictionary_id).join(Dictionary.entries).filter(Entry.word ==
word).exists()`.  `Query.exists()` returns a SQLAlchemy `Exists` clause
object (the query is never executed), and truth-testing a SQLAlchemy clause
element raises `TypeError: Boolean value of this clause is not defined` —
regardless of the dictionary id or the word in the clause. -/
def pyTruthOfExistsClause (dictionaryId : Int) (word : String) :
    Except PyExc Bool :=
  .error .typeError

/-- Method `WordValidator.validate`: for each word, evaluate
`if not db.session.query(Dictionary)...exists():` and raise
`PlayDictionaryException` when the test succeeds negatively.  The truth
test itself raises `TypeError` on the first word, so the dictionary is
never consulted. -/
def wordValidatorValidate (dictionaryId : Int) : List String → Except PyExc Bool
  | [] => .ok true
  | word :: rest => do
      let truth ← pyTruthOfExistsClause dictionaryId word
      if !truth then .error .playDictionary
      else wordValidatorValidate dictionaryId rest

/-- Tile key of a submission entry as used by
`StateUpdater._get_next_bag_and_rack`, `_get_exchanged` and
`_fetch_played_tiles`: the raw `(letter, value, is_blank)` tuple, with no
blank normalization (unlike `_validate_rack_tiles`, the submitted letter of
a played blank is kept in the key). -/
def updaterKey (e : Entry) : TileKey :=
  ⟨e.letter, e.value, e.is_blank⟩

/-- Loop body of `_get_next_bag_and_rack` over the submitted entries:
decrement the rack count of the entry's key, and add it straight back when
the entry is an exchange. -/
def applySubmittedEntry (rack : TileMap) (e : Entry) : TileMap :=
  let r := dincr rack (updaterKey e) (-1)
  if e.is_exchange then dincr r (updaterKey e) 1 else r

/-- Method `StateUpdater._get_next_bag_and_rack`: remove the submitted
tiles from the rack (returning exchanged ones immediately), compute the
number of tiles to draw as `min(TILES_ON_RACK_MAX - rack size, bag size)`,
and move each drawn key from the bag to the rack.  The tiles returned by
`random_generator.sample` are supplied as the `drawn` argument; when the
computed draw count is not positive the code draws nothing and `drawn` is
ignored. -/
def getNextBagAndRack (data : List Entry) (rack bag : TileMap)
    (drawn : List TileKey) : TileMap × TileMap :=
  let nextRack := data.foldl applySubmittedEntry rack
  let numTilesInBag := totalCount bag
  let numTilesOnRack := totalCount nextRack
  let numTilesToDraw := min (TILES_ON_RACK_MAX - numTilesOnRack) numTilesInBag
  let drawnTiles := if numTilesToDraw > 0 then drawn else []
  drawnTiles.foldl
    (fun rb k => (dincr rb.1 k 1, dincr rb.2 k (-1)))
    (nextRack, bag)

/-- Method `StateUpdater._get_exchanged`: the empty dictionary unless the
first entry is an exchange, else the counts of the submitted keys. -/
def getExchanged (data : List Entry) : TileMap :=
  match data with
  | [] => []
  | e0 :: _ =>
      if e0.is_exchange then
        data.foldl (fun m e => dincr m (updaterKey e) 1) []
      else []

/-- Rows appended to the game's board state by
`StateUpdater._fetch_played_tiles`: nothing for a pass or exchange, else one
`PlayedTile` per entry at its submitted position with the raw submitted
key. -/
def playedTilesDelta (data : List Entry) : List (Int × Int × TileKey) :=
  match data with
  | [] => []
  | e0 :: _ =>
      if e0.is_exchange then []
      else data.map (fun e => (e.row.getD 0, e.column.getD 0, updaterKey e))

/-- The mutable per-player state touched by `StateUpdater.update_state`. -/
structure GamePlayerState where
  score : Int
  rack : TileMap
deriving DecidableEq, Repr

/-- The mutable game state touched by `StateUpdater.update_state`:
`completed` embeds whether `Game.completed` has been set to the play
timestamp. -/
structure GameState where
  players : List GamePlayerState
  moverIdx : Nat
  bag : TileMap
  turnNumber : Int
  completed : Bool
  board : List (Int × Int × TileKey)
deriving DecidableEq, Repr

/-- Python `sum(tile_count.tile.value * tile_count.count for tile_count in
game_player.rack)`. -/
def rackValueSum (m : TileMap) : Int :=
  (m.map (fun p => p.1.value * p.2)).sum

/-- Method `StateUpdater.update_state`: compute the next rack and bag,
credit the turn score, extend the board with the newly played tiles and
advance the turn number; then, only when BOTH the next rack item list and
the next bag item list are empty lists (`if not self.game_player.rack and
not self.game_state.bag_tiles`), finalize the game: set `completed`,
subtract every player's remaining rack value from their score and add the
total to the mover's score.  Keys with count zero stay in the item lists, so
the emptiness test sees them. -/
def updateState (g : GameState) (data : List Entry) (turnScore : Int)
    (drawn : List TileKey) : GameState :=
  let moverRack := ((g.players.get? g.moverIdx).map (fun p => p.rack)).getD []
  let next := getNextBagAndRack data moverRack g.bag drawn
  let nextRack := next.1
  let nextBag := next.2
  let players1 := g.players.mapIdx (fun i p =>
    if i = g.moverIdx then
      { p with rack := nextRack, score := p.score + turnScore }
    else p)
  let g1 : GameState :=
    { g with
        players := players1
        bag := nextBag
        board := g.board ++ playedTilesDelta data
        turnNumber := g.turnNumber + 1 }
  if nextRack.isEmpty && nextBag.isEmpty then
    let remainingSum := (g1.players.map (fun p => rackValueSum p.rack)).sum
    let players2 := g1.players.map (fun p =>
      { p with score := p.score - rackValueSum p.rack })
    let players3 := players2.mapIdx (fun i p =>
      if i = g.moverIdx then { p with score := p.score + remainingSum } else p)
    { g1 with players := players3, completed := true }
  else g1

/-- State of the lock table for one key: `some e` when a `Lock` row with
expiry `e` exists, `none` when it is absent. -/
abbrev LockRow := Option Int

/-- One iteration of the acquisition loop in `acquire_lock`
(`slobsterble/models/lock.py`): an absent row is created with expiry
`now + expire_seconds`; an existing row whose expiry is strictly in the past
is refreshed in place to `now + expire_seconds`; an existing unexpired row
is left alone and the attempt fails.  The returned value is the expiry of
the acquired row, or `none` when the attempt failed. -/
def lockAttempt (row : LockRow) (now expireSeconds : Int) : Option Int :=
  match row with
  | none => some (now + expireSeconds)
  | some expiry =>
      if expiry < now then some (now + expireSeconds) else none

/-- Outcome of a full `acquire_lock` context: on success, the lock row while
the guarded block runs and the row after the `finally` deletion; on failure
(`AcquireLockException`), the row as the call leaves it. -/
inductive LockOutcome where
  | acquired (during afterRelease : LockRow)
  | failed (after : LockRow)
deriving DecidableEq, Repr

/-- The `acquire_lock` context manager, driven by the list of instants at
which the acquisition loop runs its body (a single instant models
`block_seconds=None`, which checks exactly once; several instants model the
0.1-second polling of a blocking call).  On acquisition the guarded block
runs and the `finally` clause deletes the row; when every attempt fails the
call raises `AcquireLockException` and the `finally` clause leaves the row
alone because `lock_acquired` is false. -/
def acquireLockRun (row : LockRow) (times : List Int) (expireSeconds : Int) :
    LockOutcome :=
  match times with
  | [] => .failed row
  | t :: rest =>
      match lockAttempt row t expireSeconds with
      | some expiry => .acquired (some expiry) none
      | none => acquireLockRun row rest expireSeconds

/-- An empty 15-by-15 board with no modifiers (all multipliers `(1, 1)`). -/
def emptyBoard15 : GameBoard :=
  { rows := 15
    columns := 15
    modifiers := fun _ _ => (1, 1)
    playedTiles := fun _ _ => none }

/-- A 15-by-15 board whose centre cell `(7, 7)` holds a tile, as after any
completed first play. -/
def centreBoard15 : GameBoard :=
  { rows := 15
    columns := 15
    modifiers := fun _ _ => (1, 1)
    playedTiles := fun r c =>
      if r = 7 ∧ c = 7 then some ⟨some 'A', 1⟩ else none }

/-- The Scenario A submission: one non-blank `'A'` of value 1 played at the
centre cell of a 15-by-15 board. -/
def scenarioAEntry : Entry :=
  { row := some 7, column := some 7, letter := some 'A', value := 1,
    is_blank := false, is_exchange := false }

/-- Key of an intrinsic blank tile as it sits on a rack (no letter). -/
def blankKey : TileKey := ⟨none, 0, true⟩

/-- Key of a blank tile as submitted with the assigned letter `'A'`. -/
def blankAsAKey : TileKey := ⟨some 'A', 0, true⟩

/-- A rack holding a single intrinsic blank tile. -/
def rackWithBlank : TileMap := [(blankKey, 1)]

/-- Submission playing the blank at the centre with assigned letter `'A'`. -/
def blankPlayedAsA : Entry :=
  { row := some 7, column := some 7, letter := some 'A', value := 0,
    is_blank := true, is_exchange := false }

/-- Key of a value-1 `'A'` tile. -/
def tileA : TileKey := ⟨some 'A', 1, false⟩

/-- Key of a value-3 `'B'` tile. -/
def tileB : TileKey := ⟨some 'B', 3, false⟩

/-- A full rack of seven `'A'` tiles. -/
def rackFullA : TileMap := [(tileA, 7)]

/-- A bag of five `'B'` tiles. -/
def bagFiveB : TileMap := [(tileB, 5)]

/-- Submission exchanging one `'A'` tile. -/
def exchangeA : Entry :=
  { row := none, column := none, letter := some 'A', value := 1,
    is_blank := false, is_exchange := true }

/-- A two-player game in which the mover exchanges a tile: the mover holds a
full rack of seven `'A'` tiles and the bag holds five `'B'` tiles. -/
def exchangeGame : GameState :=
  { players := [⟨10, rackFullA⟩]
    moverIdx := 0
    bag := bagFiveB
    turnNumber := 8
    completed := false
    board := [] }

/-- A two-player game in which the mover holds one last `'A'` tile and the
bag is empty, about to play that tile. -/
def lastTileGame : GameState :=
  { players := [⟨10, [(tileA, 1)]⟩, ⟨20, [(tileB, 2)]⟩]
    moverIdx := 0
    bag := []
    turnNumber := 8
    completed := false
    board := [] }

/-- Submission playing the mover's last `'A'` tile at `(7, 8)`. -/
def lastTilePlay : Entry :=
  { row := some 7, column := some 8, letter := some 'A', value := 1,
    is_blank := false, is_exchange := false }

/-- A schema-valid played-tile JSON entry at the given row and column. -/
def jPlay (r c : Int) : JEntry :=
  { row := .int r, column := .int c, letter := .str "A", value := .int 1,
    is_blank := .bool false, is_exchange := .bool false }

/-- A schema-valid exchanged-letter JSON entry. -/
def jExchange : JEntry :=
  { row := .null, column := .null, letter := .str "A", value := .int 1,
    is_blank := .bool false, is_exchange := .bool true }

/-- Under the play-entry hypothesis every `row` field is an integer, so the
`filterMap` feeding `row_set` keeps one element per entry. -/
theorem filterMap_row_length (data : List JEntry)
    (h : ∀ e ∈ data, ∃ n, e.row = JVal.int n) :
    (data.filterMap (fun e => jOptInt e.row)).length = data.length := by
  induction data with
  | nil => rfl
  | cons hd tl ih =>
    obtain ⟨n, hn⟩ := h hd (List.mem_cons_self hd tl)
    have htl := fun e he => h e (List.mem_cons_of_mem hd he)
    have hsome : jOptInt hd.row = some n := by rw [hn]; rfl
    simp only [List.filterMap_cons, hsome, List.length_cons, ih htl]

/-- Claim C1 (code_bug evaluation): on a game state whose centre cell is
occupied — every state after a completed first play — `StatefulValidator.
validate` raises `TypeError` rather than returning a boolean or raising one
of the six listed validation exception kinds: `_validate_first_turn` falls
off the end of its body and returns `None` there, and the accumulator
statement `valid &= self._validate_first_turn()` evaluates `True & None`.
Evaluated here on a pass submission by the correct player. -/
theorem statefulValidate_typeError_on_occupied_centre :
    statefulValidate [] centreBoard15 (some ⟨1, []⟩) 1 = .error .typeError := by
  rfl

/-- Claim C2 (code_bug evaluation): a blank tile submitted with an assigned
letter passes stateful validation (the rack check normalizes the key to
`(None, value, True)`), yet `_get_next_bag_and_rack` decrements the raw key
`('A', 0, True)`, leaving the rack with a count of `-1` for that key while
the intrinsic blank key keeps its count of `1` — a rack count becomes
negative and the blank tile is not removed, contradicting the claimed
conservation with non-negative counts. -/
theorem blank_play_negative_rack_count :
    statefulValidate [blankPlayedAsA] emptyBoard15 (some ⟨1, rackWithBlank⟩) 1 =
        .ok true ∧
    dget (getNextBagAndRack [blankPlayedAsA] rackWithBlank [] []).1 blankAsAKey =
        -1 ∧
    dget (getNextBagAndRack [blankPlayedAsA] rackWithBlank [] []).1 blankKey = 1 := by
  exact ⟨rfl, rfl, rfl⟩

/-- Claim C3 (code_bug evaluation): on the Scenario A input (empty 15-by-15
board, single `'A'` of value 1 at the centre) `WordBuilder.get_played_words`
raises `AssertionError` — `_build_axis` asserts `axis in ('row', 'column')`
while being passed `Axis` enum members — and `WordBuilder.compute_score`
raises `TypeError` — `data_values` maps positions to letters, so the score
accumulation adds a string to an integer.  Neither the claimed primary word
`"A"` nor the claimed score of 1 is produced. -/
theorem scenarioA_wordBuilder_crashes :
    getPlayedWords [scenarioAEntry] emptyBoard15 = .error .assertionError ∧
    computeScore [scenarioAEntry] emptyBoard15 = .error .typeError := by
  exact ⟨rfl, rfl⟩

/-- Claim C4 (code_bug evaluation): exchanging one `'A'` from a full rack of
seven with five `'B'` tiles in the bag leaves the rack and the bag exactly
as they were — the loop in `_get_next_bag_and_rack` adds each exchanged key
straight back, so the draw count `min(7 - 7, 5)` is zero and no tile is
discarded or drawn (the claim requires the exchanged key removed and
`min(7 - 6, 5) = 1` replacement drawn).  The turn does score 0 and advance
the turn number. -/
theorem exchange_leaves_rack_unchanged :
    getNextBagAndRack [exchangeA] rackFullA bagFiveB [tileB] =
        ([(tileA, 7)], [(tileB, 5)]) ∧
    computeScore [exchangeA] emptyBoard15 = .ok 0 ∧
    (updateState exchangeGame [exchangeA] 0 [tileB]).turnNumber = 9 ∧
    (updateState exchangeGame [exchangeA] 0 [tileB]).players =
        [⟨10, [(tileA, 7)]⟩] := by
  exact ⟨rfl, rfl, rfl, rfl⟩

/-- Claim C5 (code_bug evaluation): `WordValidator.validate` on any
non-empty word list raises `TypeError` instead of consulting the dictionary:
`Query.exists()` returns a SQLAlchemy `Exists` clause object and `if not
...exists():` truth-tests it, which SQLAlchemy rejects.  In particular a
word absent from every dictionary is never answered with
`PlayDictionaryException`. -/
theorem wordValidator_raises_typeError :
    wordValidatorValidate 1 ["ZZZ"] = .error .typeError ∧
    wordValidatorValidate 1 ["ZZZ"] ≠ .error .playDictionary ∧
    wordValidatorValidate 1 ["ZZZ"] ≠ .ok true := by
  refine ⟨rfl, ?_, ?_⟩ <;> · intro h; rw [show wordValidatorValidate 1 ["ZZZ"] =
    .error .typeError from rfl] at h; simp at h

/-- Claim C6 counterexample: a submission placing two tiles on the same cell
`(7, 7)` is rejected by `_validate_single_axis` with
`PlayOverlapException`, not with the axis violation kind the claim
promises for all rejections. -/
theorem duplicate_play_raises_overlap_not_axis :
    validateSingleAxis [jPlay 7 7, jPlay 7 7] = .error .playOverlap ∧
    validateSingleAxis [jPlay 7 7, jPlay 7 7] ≠ .error .playAxis := by
  refine ⟨rfl, ?_⟩
  intro h
  rw [show validateSingleAxis [jPlay 7 7, jPlay 7 7] =
    .error .playOverlap from rfl] at h
  simp at h

/-- Claim C6 as amended: for a non-empty play submission (integer rows and
columns), `_validate_single_axis` accepts exactly when one distinct row is
used with as many distinct columns as entries, or one distinct column with
as many distinct rows as entries; a rejection raises the axis violation
only when neither coordinate has exactly one distinct value, while
single-row or single-column duplicates raise the overlap violation kind. -/
theorem validateSingleAxis_characterization (data : List JEntry)
    (hne : data ≠ [])
    (hrow : ∀ e ∈ data, ∃ n, e.row = JVal.int n) :
    (validateSingleAxis data = .ok true ↔
      ((axisRowSet data).length = 1 ∧
          (axisColumnSet data).length = data.length) ∨
        ((axisColumnSet data).length = 1 ∧
          (axisRowSet data).length = data.length)) ∧
    ((axisRowSet data).length ≠ 1 → (axisColumnSet data).length ≠ 1 →
      validateSingleAxis data = .error .playAxis) ∧
    ((axisRowSet data).length = 1 →
      (axisColumnSet data).length ≠ data.length →
      validateSingleAxis data = .error .playOverlap) ∧
    ((axisRowSet data).length ≠ 1 → (axisColumnSet data).length = 1 →
      (axisRowSet data).length ≠ data.length →
      validateSingleAxis data = .error .playOverlap) := by
  have hRlen : (data.filterMap (fun e => jOptInt e.row)).length = data.length :=
    filterMap_row_length data hrow
  have hR0 : (axisRowSet data).length ≠ 0 := by
    intro h0
    apply hne
    have hnil : (data.filterMap (fun e => jOptInt e.row)).dedup = [] :=
      List.length_eq_zero.mp h0
    have hfm : data.filterMap (fun e => jOptInt e.row) = [] :=
      (List.dedup_eq_nil _).mp hnil
    have hlen0 := congrArg List.length hfm
    rw [hRlen] at hlen0
    exact List.length_eq_zero.mp hlen0
  have hG1 : ¬ ((axisRowSet data).length = 0 ∧ (axisColumnSet data).length = 0) :=
    fun hc => hR0 hc.1
  by_cases h1 : (axisRowSet data).length = 1
  · by_cases h2 : (axisColumnSet data).length = data.length
    · have hval : validateSingleAxis data = .ok true := by
        unfold validateSingleAxis
        rw [if_neg hG1, if_pos h1, if_neg (fun hc => hc h2)]
      rw [hval]
      refine ⟨⟨fun _ => Or.inl ⟨h1, h2⟩, fun _ => rfl⟩, ?_, ?_, ?_⟩
      · intro hc _; exact absurd h1 hc
      · intro _ hc; exact absurd h2 hc
      · intro hc _ _; exact absurd h1 hc
    · have hval : validateSingleAxis data = .error .playOverlap := by
        unfold validateSingleAxis
        rw [if_neg hG1, if_pos h1, if_pos h2]
      rw [hval]
      refine ⟨⟨fun h => by simp at h, ?_⟩, ?_, ?_, ?_⟩
      · rintro (⟨_, hB⟩ | ⟨hC1, hClen⟩)
        · exact absurd hB h2
        · exact absurd (by omega : (axisColumnSet data).length = data.length) h2
      · intro hc _; exact absurd h1 hc
      · intro _ _; rfl
      · intro hc _ _; exact absurd h1 hc
  · by_cases h2 : (axisColumnSet data).length = 1
    · by_cases h3 : (axisRowSet data).length = data.length
      · have hval : validateSingleAxis data = .ok true := by
          unfold validateSingleAxis
          rw [if_neg hG1, if_neg h1, if_pos h2, if_neg (fun hc => hc h3)]
        rw [hval]
        refine ⟨⟨fun _ => Or.inr ⟨h2, h3⟩, fun _ => rfl⟩, ?_, ?_, ?_⟩
        · intro _ hc; exact absurd h2 hc
        · intro hc _; exact absurd hc h1
        · intro _ _ hc; exact absurd h3 hc
      · have hval : validateSingleAxis data = .error .playOverlap := by
          unfold validateSingleAxis
          rw [if_neg hG1, if_neg h1, if_pos h2, if_pos h3]
        rw [hval]
        refine ⟨⟨fun h => by simp at h, ?_⟩, ?_, ?_, ?_⟩
        · rintro (⟨hA, _⟩ | ⟨_, hClen⟩)
          · exact absurd hA h1
          · exact absurd hClen h3
        · intro _ hc; exact absurd h2 hc
        · intro hc _; exact absurd hc h1
        · intro _ _ _; rfl
    · have hval : validateSingleAxis data = .error .playAxis := by
        unfold validateSingleAxis
        rw [if_neg hG1, if_neg h1, if_neg h2]
      rw [hval]
      refine ⟨⟨fun h => by simp at h, ?_⟩, ?_, ?_, ?_⟩
      · rintro (⟨hA, _⟩ | ⟨hC1, _⟩)
        · exact absurd hA h1
        · exact absurd hC1 h2
      · intro _ _; rfl
      · intro hc _; exact absurd hc h1
      · intro _ hc _; exact absurd hc h2

/-- Witness for `validateSingleAxis_characterization`: the two-tile
horizontal play at `(7, 7)` and `(7, 8)` satisfies the hypotheses and the
characterization accepts it. -/
theorem validateSingleAxis_characterization_witness :
    validateSingleAxis [jPlay 7 7, jPlay 7 8] = .ok true :=
  (validateSingleAxis_characterization [jPlay 7 7, jPlay 7 8]
      (by decide)
      (by
        intro e he
        rcases List.mem_cons.mp he with h | h
        · exact ⟨7, by rw [h]; rfl⟩
        · rcases List.mem_cons.mp h with h2 | h2
          · exact ⟨7, by rw [h2]; rfl⟩
          · cases h2)).1.mpr
    (Or.inl ⟨by rfl, by rfl⟩)

/-- Claim C7 (code_bug evaluation): the mover plays their last tile with the
bag already empty; the rack is now empty as a multiset and the bag is empty,
yet the finalization branch of `update_state` does not run: the key of the
played tile stays in the `next_rack_state` dictionary with count 0, so the
rack item list is non-empty and `if not self.game_player.rack and not
self.game_state.bag_tiles` is false.  The game stays uncompleted, the
opponent's score is untouched and no rack values are transferred to the
mover. -/
theorem completion_not_triggered_on_empty_rack_and_bag :
    updateState lastTileGame [lastTilePlay] 5 [] =
        { players := [⟨15, [(tileA, 0)]⟩, ⟨20, [(tileB, 2)]⟩]
          moverIdx := 0
          bag := []
          turnNumber := 9
          completed := false
          board := [(7, 8, tileA)] } ∧
    totalCount [(tileA, 0)] = 0 := by
  exact ⟨rfl, rfl⟩

/-- Claim C8: acquiring a lock whose row exists and is unexpired, with no
blocking budget, fails immediately with `AcquireLockException` and leaves
the row as it was; acquiring a lock whose row has expired succeeds and
renews that row's expiry in place to `now + expire_seconds` (the row is
deleted again on exit of the guarded block). -/
theorem acquire_lock_held_vs_expired (e now expireSeconds : Int) :
    (now ≤ e →
      acquireLockRun (some e) [now] expireSeconds = .failed (some e)) ∧
    (e < now → ∀ rest : List Int,
      acquireLockRun (some e) (now :: rest) expireSeconds =
        .acquired (some (now + expireSeconds)) none) := by
  constructor
  · intro h
    have hlt : ¬ e < now := not_lt.mpr h
    simp [acquireLockRun, lockAttempt, hlt]
  · intro h rest
    simp [acquireLockRun, lockAttempt, h]

/-- Witness for `acquire_lock_held_vs_expired` at concrete instants: a lock
with expiry 10 blocks an attempt at time 5, and a lock with expiry 3 is
reclaimed by an attempt at time 5 with a renewed expiry of 65. -/
theorem acquire_lock_held_vs_expired_witness :
    acquireLockRun (some 10) [5] 60 = .failed (some 10) ∧
    acquireLockRun (some 3) [5, 6] 60 = .acquired (some (5 + 60)) none :=
  ⟨(acquire_lock_held_vs_expired 10 5 60).1 (by decide),
   (acquire_lock_held_vs_expired 3 5 60).2 (by decide) [6]⟩

/-- Claim C9: any submission containing one entry whose `is_exchange` field
is `true` and one whose `is_exchange` field is `false` fails both branches
of `TURN_PLAY_SCHEMA` (each branch pins `is_exchange` with a `const`), so
`StatelessValidator.validate` raises `PlaySchemaException` — before the
axis check and without consulting any game state. -/
theorem mixed_exchange_raises_schema_violation
    (rowsMax colsMax valMax : Int) (data : List JEntry)
    (hplay : ∃ e ∈ data, e.is_exchange = .bool false)
    (hexch : ∃ e ∈ data, e.is_exchange = .bool true) :
    statelessValidate rowsMax colsMax valMax data = .error .playSchema := by
  obtain ⟨ep, hpm, hpf⟩ := hplay
  obtain ⟨ee, hem, het⟩ := hexch
  have h1 : data.all (matchesPlayedTile rowsMax colsMax valMax) = false := by
    rw [Bool.eq_false_iff]
    intro hall
    have hme := List.all_eq_true.mp hall ee hem
    unfold matchesPlayedTile at hme
    rw [het] at hme
    simp at hme
  have h2 : data.all (matchesExchangedTile valMax) = false := by
    rw [Bool.eq_false_iff]
    intro hall
    have hmp := List.all_eq_true.mp hall ep hpm
    unfold matchesExchangedTile matchesExchangedBlank matchesExchangedLetter at hmp
    rw [hpf] at hmp
    simp at hmp
  have hschema : turnPlaySchema rowsMax colsMax valMax data = false := by
    unfold turnPlaySchema
    rw [h1, h2]
    simp
  unfold statelessValidate
  rw [hschema]
  simp

/-- Witness for `mixed_exchange_raises_schema_violation`: a played `'A'` at
`(7, 7)` mixed with an exchanged `'A'` is rejected as a schema violation. -/
theorem mixed_exchange_raises_schema_violation_witness :
    statelessValidate 20 20 20 [jPlay 7 7, jExchange] = .error .playSchema :=
  mixed_exchange_raises_schema_violation 20 20 20 [jPlay 7 7, jExchange]
    ⟨jPlay 7 7, List.mem_cons_self _ _, rfl⟩
    ⟨jExchange, List.mem_cons_of_mem _ (List.mem_cons_self _ _), rfl⟩

/-- Claim C10: whenever `acquire_lock` fails with `AcquireLockException` —
immediately or after any sequence of polling attempts — the pre-existing
lock row for the key is left exactly as it was: it is neither deleted nor is
its expiry modified (the `finally` clause deletes the row only when this
call acquired the lock). -/
theorem acquire_lock_failure_frame (row : LockRow) (times : List Int)
    (expireSeconds : Int) (after : LockRow)
    (h : acquireLockRun row times expireSeconds = .failed after) :
    after = row := by
  induction times with
  | nil =>
    simp [acquireLockRun] at h
    exact h.symm
  | cons t rest ih =>
    cases hA : lockAttempt row t expireSeconds with
    | some expiry =>
      simp [acquireLockRun, hA] at h
    | none =>
      simp only [acquireLockRun, hA] at h
      exact ih h

/-- Witness for `acquire_lock_failure_frame`: two failing attempts (at
times 5 and 6) against a lock expiring at time 10 leave the row holding
expiry 10. -/
theorem acquire_lock_failure_frame_witness :
    acquireLockRun (some 10) [5, 6] 60 = .failed (some 10) ∧
    ((some 10 : LockRow) = some 10) :=
  ⟨rfl, acquire_lock_failure_frame (some 10) [5, 6] 60 (some 10) rfl⟩

end Slobsterble
